import Mathlib

/-!
# TUI Form Designer — verification of the flow-execution and preprocessing core

Shallow embedding of the repository's core logic:

* the expression evaluator (`_evaluate_expression`, `_get_nested_value`,
  `_should_show_step`) — character-for-character identical in
  `tui_form_designer/core/flow_engine.py` and `tui_form_engine/core/flow_engine.py`,
  so embedded once;
* the output mapper (`_apply_output_mapping`) — identical in both copies, embedded once;
* the definition validator, question builder and step loop of the designer engine
  (`FlowEngine`, namespace `TuiFormDesigner`);
* the validator, step loop and defaults merging of the engine copy
  (`FormExecutor`, `DefaultsPreprocessor`, namespace `TuiFormEngine`);
* both `LayoutPreprocessor.reconstruct_virtual_layout` implementations.

Python values flowing through answer contexts are modelled by `Val`; Python
dicts by insertion-ordered association lists with update-in-place semantics
(`pySet`).  Fallible code (KeyError on a missing dict subscript, raised engine
exceptions) is modelled with `Except`.  Terminal output is out of scope and is
dropped; the blocking prompt collaborator is an oracle parameter.
-/

/-- A Python value as it occurs in answer contexts, mock-response maps and
defaults files: `None`, bools, ints, floats, strings, and nested mappings.
A float is an exact decimal `num / 10^exp` — the only floats the evaluator
ever produces come from finite-decimal literals, and none of the claims
exercises IEEE rounding, so the exact-decimal model is faithful where it is
used. -/
inductive Val where
  | vnone : Val
  | vbool (b : Bool) : Val
  | vint (n : Int) : Val
  | vfloat (num : Int) (exp : Nat) : Val
  | vstr (s : String) : Val
  | vdict (d : List (String × Val)) : Val

/-- An insertion-ordered Python dict from step ids to values. -/
abbrev Ctx := List (String × Val)

/-- `d[k]` lookup returning the first binding (dicts built by `pySet` have at
most one binding per key). -/
def pyGet (c : Ctx) (k : String) : Option Val :=
  match c with
  | [] => none
  | (k₁, v₁) :: rest => if k₁ = k then some v₁ else pyGet rest k

/-- `d[k] = v`: replace the existing binding in place, else append at the end
(Python dicts keep insertion order). -/
def pySet (c : Ctx) (k : String) (v : Val) : Ctx :=
  match c with
  | [] => [(k, v)]
  | (k₁, v₁) :: rest => if k₁ = k then (k₁, v) :: rest else (k₁, v₁) :: pySet rest k v

/-- `{**a, **b}` / `a.update(b)`: fold the right dict into the left. -/
def pyMerge (a b : Ctx) : Ctx :=
  b.foldl (fun acc kv => pySet acc kv.1 kv.2) a

/-- The keys of a dict, in order. -/
def keysOf (c : Ctx) : List String :=
  c.map Prod.fst

/-- Python truthiness of a value (`bool(v)`). -/
def truthy : Val → Bool
  | .vnone => false
  | .vbool b => b
  | .vint n => n != 0
  | .vfloat num _ => num != 0
  | .vstr s => s != ""
  | .vdict d => !d.isEmpty

/-- The coerced right-hand side of an `==` comparison: the literal is parsed
into a bool, int, float (`num / 10^exp`) or string, never `None` and never a
mapping. -/
inductive Literal where
  | lbool (b : Bool) : Literal
  | lint (n : Int) : Literal
  | lfloat (num : Int) (exp : Nat) : Literal
  | lstr (s : String) : Literal
deriving DecidableEq

/-- Python `==` between a context value (left, uncoerced) and a coerced
literal (right).  Python's numeric tower makes `True == 1` and `3 == 3.0`
true (float comparisons are cross-multiplied out of the `num / 10^exp`
representation); every cross-kind comparison outside the numeric tower is
`False`, and `None` compares unequal to everything but `None` (a literal is
never `None`). -/
def pyEqLit : Val → Literal → Bool
  | .vbool a, .lbool b => a = b
  | .vint n, .lbool b => n = (if b then 1 else 0)
  | .vfloat num exp, .lbool b => num = (if b then 1 else 0) * (10 : Int) ^ exp
  | .vbool a, .lint n => (if a then 1 else 0 : Int) = n
  | .vint n, .lint m => n = m
  | .vfloat num exp, .lint m => num = m * (10 : Int) ^ exp
  | .vbool a, .lfloat m f => (if a then 1 else 0 : Int) * (10 : Int) ^ f = m
  | .vint n, .lfloat m f => n * (10 : Int) ^ f = m
  | .vfloat n e, .lfloat m f => n * (10 : Int) ^ f = m * (10 : Int) ^ e
  | .vstr s, .lstr t => s = t
  | _, _ => false

/-- ASCII whitespace, for Python `str.strip()`. -/
def isSpaceChar (ch : Char) : Bool :=
  ch = ' ' || ch = '\t' || ch = '\n' || ch = '\r'

/-- Strip characters satisfying `p` from both ends of a string
(Python `str.strip(chars)` semantics). -/
def stripEnds (p : Char → Bool) (s : String) : String :=
  String.mk (((s.toList.dropWhile p).reverse.dropWhile p).reverse)

/-- Python `str.strip()` (whitespace, ASCII model). -/
def pyStripWS (s : String) : String :=
  stripEnds isSpaceChar s

/-- Python `str.strip("'\\\"")`: the strip set in the source is a quote,
a backslash and a double quote. -/
def stripQuotes (s : String) : String :=
  stripEnds (fun ch => ch = '\'' || ch = '\\' || ch = '"') s

/-- Find the first occurrence of `==` in a character list; returns the part
before and the part after (Python `expression.split("==", 1)` combined with
the `"==" in expression` test). -/
def splitEqChars : List Char → Option (List Char × List Char)
  | [] => none
  | [_] => none
  | a :: b :: rest =>
    if a = '=' ∧ b = '=' then some ([], rest)
    else match splitEqChars (b :: rest) with
      | some (l, r) => some (a :: l, r)
      | none => none

/-- `expression.split("==", 1)` when `"==" in expression`. -/
def splitFirstEq (s : String) : Option (String × String) :=
  match splitEqChars s.toList with
  | some (l, r) => some (String.mk l, String.mk r)
  | none => none

/-- Python `str.isdigit()` (ASCII model): nonempty and all digits. -/
def pyIsDigit (s : String) : Bool :=
  !s.toList.isEmpty && s.toList.all (·.isDigit)

/-- Python `str.replace(".", "", 1)`: drop the first dot. -/
def dropFirstDot : List Char → List Char
  | [] => []
  | ch :: rest => if ch = '.' then rest else ch :: dropFirstDot rest

/-- `int(s)` on a digit string. -/
def digitsToNat (l : List Char) : Nat :=
  l.foldl (fun acc ch => acc * 10 + (ch.toNat - '0'.toNat)) 0

/-- `float(s)` on a token made of digits and exactly one dot, as an exact
scaled decimal `num / 10^exp`. -/
def parseFloat (s : String) : Int × Nat :=
  let intPart := s.toList.takeWhile (· ≠ '.')
  let fracPart := (s.toList.dropWhile (· ≠ '.')).drop 1
  ((digitsToNat intPart * 10 ^ fracPart.length + digitsToNat fracPart : Int),
    fracPart.length)

/-- Python `str.lower()` (via `Char.toLower`, ASCII model of the source's
usage on plain identifiers). -/
def pyLower (s : String) : String :=
  String.mk (s.toList.map Char.toLower)

/-- Coercion of the right-hand token of an `==` comparison, after whitespace
and quote stripping: case-insensitive `true`/`false` to booleans, digit
tokens to ints, digits-with-one-dot tokens to floats, else the string itself. -/
def coerceLiteral (s : String) : Literal :=
  if pyLower s = "true" then .lbool true
  else if pyLower s = "false" then .lbool false
  else if pyIsDigit s then .lint (digitsToNat s.toList)
  else if pyIsDigit (String.mk (dropFirstDot s.toList)) then
    .lfloat (parseFloat s).1 (parseFloat s).2
  else .lstr s

/-- `key.split(".")` on character lists (Python semantics: `"" → [""]`,
separators at the ends produce empty segments). -/
def splitDots : List Char → List (List Char)
  | [] => [[]]
  | ch :: rest =>
    if ch = '.' then [] :: splitDots rest
    else match splitDots rest with
      | seg :: segs => (ch :: seg) :: segs
      | [] => [[ch]]

/-- `_get_nested_value(data, key)`: dot-path resolution through nested
mappings; any missing segment (or traversal into a non-mapping) yields
Python `None`, modelled as `Val.vnone`. -/
def get_nested_value (data : Ctx) (key : String) : Val :=
  go (Val.vdict data) ((splitDots key.toList).map String.mk)
where
  go : Val → List String → Val
  | v, [] => v
  | .vdict d, k :: rest =>
    match pyGet d k with
    | some v => go v rest
    | none => .vnone
  | _, _ :: _ => .vnone

/-- `_evaluate_expression(expression, context)` — identical in both engine
copies.  An `==` expression compares the dot-path-resolved left side
(uncoerced) against the coerced right literal; a bare key returns its
truthiness; anything else is `False`. -/
def evaluate_expression (expression : String) (context : Ctx) : Bool :=
  match splitFirstEq expression with
  | some (l, r) =>
    let left := pyStripWS l
    let right := stripQuotes (pyStripWS r)
    pyEqLit (get_nested_value context left) (coerceLiteral right)
  | none =>
    match pyGet context expression with
    | some v => truthy v
    | none => false

/-- One entry of a `select`/`multiselect` step's `choices`: either a bare
display string or a `{name, value}`-style mapping (with either key possibly
absent, as raw YAML allows). -/
inductive Choice where
  | cstr (s : String) : Choice
  | cpair (name : Option String) (value : Option Val) : Choice

/-- A step of a flow definition, as a record of the YAML keys the engine
reads; `none` models an absent key.  A sublayout reference is a step carrying
`sublayout`/`subid` instead of `type`. -/
structure Step where
  id : Option String := none
  type : Option String := none
  message : Option String := none
  instruction : Option String := none
  title : Option String := none
  icon : Option String := none
  condition : Option String := none
  whenKey : Option String := none
  compute : Option String := none
  defaultVal : Option Val := none
  validate : Option String := none
  preview : Option String := none
  choices : Option (List Choice) := none
  sublayout : Option String := none
  subid : Option String := none

/-- A node of an `output_mapping` spec: a string leaf naming a step id, or a
nested mapping (the data model declares the leaves to be strings). -/
inductive MNode where
  | leaf (s : String) : MNode
  | node (entries : List (String × MNode)) : MNode

/-- An output-mapping spec: the top-level mapping of an `output_mapping`. -/
abbrev MSpec := List (String × MNode)

/-- A parsed YAML document (flow definition, sublayout fragment or defaults
file), as a record of the top-level keys the engines read. -/
structure FlowDef where
  layout_id : Option String := none
  flow_id : Option String := none
  title : Option String := none
  description : Option String := none
  icon : Option String := none
  version : Option String := none
  metadata : Option Val := none
  steps : Option (List Step) := none
  output_mapping : Option MSpec := none
  defaults_file : Option String := none
  sublayout_defaults : Option String := none
  defaults : Option Ctx := none

/-- Truthiness of an optional string (`step.get(k)` followed by a Python
truth test): present and nonempty. -/
def truthyStr : Option String → Bool
  | some s => s ≠ ""
  | none => false

/-- Python `a or b` on two optional strings (`step.get("condition") or
step.get("when")`). -/
def pyOrStr (a b : Option String) : Option String :=
  if truthyStr a then a else b

/-- `_should_show_step(step, context)` — identical in both engine copies.
Absent `condition` and `when` keys mean always visible, else the gating
expression is evaluated.  (When both keys are present but falsy the Python
source would raise a `TypeError` inside `_evaluate_expression`; no claim and
no valid flow reaches that corner, which this total model sends through
`evaluate_expression ""`.) -/
def should_show_step (step : Step) (context : Ctx) : Bool :=
  if step.condition = none ∧ step.whenKey = none then true
  else evaluate_expression ((pyOrStr step.condition step.whenKey).getD "") context

/-- `_apply_output_mapping(answers, mapping)` — identical in both engine
copies.  A nested mapping value produces a nested (possibly empty) result
object; a string value naming a present answer key produces a direct
assignment; a string naming an absent key is silently dropped. -/
def apply_output_mapping (answers : Ctx) : MSpec → Ctx
  | [] => []
  | (k, .node sub) :: rest =>
    (k, .vdict (apply_output_mapping answers sub)) :: apply_output_mapping answers rest
  | (k, .leaf s) :: rest =>
    match pyGet answers s with
    | some v => (k, v) :: apply_output_mapping answers rest
    | none => apply_output_mapping answers rest

/-- Does `s` start with `p`? (Python `str.startswith`, structural model.) -/
def startsWithStr (s p : String) : Bool :=
  go s.toList p.toList
where
  go : List Char → List Char → Bool
  | _, [] => true
  | [], _ :: _ => false
  | a :: as, b :: bs => a = b && go as bs

/-- Errors raised by a flow execution: a `FlowValidationError` carrying the
collected messages, a `FlowExecutionError` for user cancellation, or a Python
`KeyError` from subscripting a missing key. -/
inductive ExecErr where
  | validationError (msgs : List String)
  | executionCancelled
  | keyError (key : String)
deriving DecidableEq

/-- The outcome of one blocking `question.ask()` call on the prompt
collaborator: an answer value (`Val.vnone` models the `None` that some
prompt toolkits substitute for a swallowed interrupt), or a
`KeyboardInterrupt` raised during the ask. -/
inductive AskResult where
  | answer (v : Val)
  | interrupt

/-- Errors raised by the layout/defaults preprocessors. -/
inductive PreErr where
  | fileNotFound (path : String)
  | circularRef (path : String)
  | emptyYaml (path : String)
  | duplicateIds (ids : List String)
deriving DecidableEq

/-- An in-memory file system: already-parsed YAML documents by path
(`yaml.safe_load` of each file; a path absent from the list is a missing
file). -/
abbrev FS := List (String × FlowDef)

/-- Look a parsed document up by path. -/
def fsGet (fs : FS) (p : String) : Option FlowDef :=
  match fs with
  | [] => none
  | (k, d) :: rest => if k = p then some d else fsGet rest p

/-- `Path(p).parent` for the normalized slash-separated paths of the model. -/
def parentOf (p : String) : String :=
  String.mk (((p.toList.reverse.dropWhile (· ≠ '/')).drop 1).reverse)

/-- `dir / name` for the normalized slash-separated paths of the model. -/
def joinPath (dir name : String) : String :=
  dir ++ "/" ++ name

namespace TuiFormDesigner

/-- The closed set of valid step types of the designer validator
(`FlowEngine.validate_flow`). -/
def validStepTypes : List String :=
  ["text", "select", "multiselect", "confirm", "password", "computed", "info"]

/-- Placeholder id prefixes flagged by `_validate_production_ready`. -/
def placeholderPatterns : List String :=
  ["example_", "test_", "placeholder_", "sample_", "demo_", "temp_", "mock_", "dummy_"]

/-- Generic messages flagged by `_validate_production_ready`. -/
def genericMessages : List String :=
  ["Enter a value:", "Provide configuration input", "Enter text here",
    "Select an option", "Choose a value", "Input value", "Type something"]

/-- Generic instructions flagged by `_validate_production_ready`. -/
def genericInstructions : List String :=
  ["Provide configuration input", "Enter your input", "Fill in this field"]

/-- The structural error strings one step contributes in
`FlowEngine.validate_flow`, given the ids and subids accumulated so far.
(The source re-tests `"sublayout" not in step` inside the sublayout branch;
that test is unreachable there and contributes nothing.) -/
def stepStructuralErrors (i : Nat) (stepIds subids : List String) (step : Step) :
    List String :=
  if step.sublayout.isSome then
    (match step.subid with
     | none => ["Step " ++ toString i ++ ": Sublayout missing subid field"]
     | some sid =>
       if sid ∈ subids then ["Step " ++ toString i ++ ": Duplicate subid " ++ sid]
       else [])
  else
    (match step.id with
     | none => ["Step " ++ toString i ++ ": Missing id field"]
     | some sid =>
       if sid ∈ stepIds then ["Step " ++ toString i ++ ": Duplicate step ID " ++ sid]
       else [])
    ++ (match step.type with
        | none => ["Step " ++ toString i ++ ": Missing type field"]
        | some t =>
          if t ∈ validStepTypes then []
          else ["Step " ++ toString i ++ ": Invalid step type " ++ t])
    ++ (if step.message.isNone &&
          (match step.type with
           | some t => !(t = "computed" || t = "info")
           | none => true) then
          ["Step " ++ toString i ++ ": Missing message field"]
        else [])
    ++ (match step.type with
        | some t =>
          if (t = "select" ∨ t = "multiselect") ∧ step.choices.isNone then
            ["Step " ++ toString i ++ ": " ++ t ++ " step missing choices field"]
          else []
        | none => [])

/-- The id set after processing one step (`step_ids.add` runs only when the
id is present and not already a duplicate). -/
def nextIds (stepIds : List String) (step : Step) : List String :=
  if step.sublayout.isSome then stepIds
  else match step.id with
    | some sid => if sid ∈ stepIds then stepIds else stepIds ++ [sid]
    | none => stepIds

/-- The subid set after processing one step. -/
def nextSubids (subids : List String) (step : Step) : List String :=
  if step.sublayout.isSome then
    match step.subid with
    | some sid => if sid ∈ subids then subids else subids ++ [sid]
    | none => subids
  else subids

/-- The step loop of `FlowEngine.validate_flow`. -/
def validateStepsGo (i : Nat) (stepIds subids : List String) :
    List Step → List String
  | [] => []
  | step :: rest =>
    stepStructuralErrors i stepIds subids step
      ++ validateStepsGo (i + 1) (nextIds stepIds step) (nextSubids subids step) rest

/-- The strict-mode warnings one step contributes in
`FlowEngine._validate_production_ready`. -/
def prodReadyStepWarnings (i : Nat) (step : Step) : List String :=
  let stepId := step.id.getD ""
  let message := step.message.getD ""
  let instruction := step.instruction.getD ""
  (if placeholderPatterns.any (fun p => startsWithStr (pyLower stepId) p) then
      ["Step " ++ toString i ++ " (" ++ stepId ++ "): Placeholder ID detected"]
    else [])
  ++ (if message ∈ genericMessages then
        ["Step " ++ toString i ++ " (" ++ stepId ++ "): Generic message " ++ message]
      else [])
  ++ (if instruction ∈ genericInstructions then
        ["Step " ++ toString i ++ " (" ++ stepId ++ "): Generic instruction "
          ++ instruction]
      else [])
  ++ (if stepId = "example_input" ∧ step.type = some "text" ∧
        message = "Enter a value:" ∧ instruction = "Provide configuration input" then
        ["Step " ++ toString i ++ ": Matches exact scaffolding template"]
      else [])

/-- The step loop of `_validate_production_ready`. -/
def prodReadyGo (i : Nat) : List Step → List String
  | [] => []
  | step :: rest => prodReadyStepWarnings i step ++ prodReadyGo (i + 1) rest

/-- `FlowEngine._validate_production_ready`: strict-mode scaffolding
heuristics (placeholder ids, generic messages/instructions, the exact
scaffolding template, and the single-placeholder-step form). -/
def validate_production_ready (fd : FlowDef) : List String :=
  (match fd.steps with
   | some steps => prodReadyGo 0 steps
   | none => [])
  ++ (match fd.steps with
      | some steps =>
        if (steps.length == 1) &&
            (match steps with
             | step :: _ =>
               placeholderPatterns.any (fun p => startsWithStr (step.id.getD "") p)
             | [] => false) then
          ["Only 1 step with placeholder ID - form appears incomplete"]
        else []
      | none => [])

/-- `FlowEngine.validate_flow(flow_definition, strict)`: required top-level
fields (`layout_id`, `title`, `steps`), per-step structural checks, and the
strict-mode scaffolding checks; each violation contributes one string and
all findings are collected in order. -/
def validate_flow (fd : FlowDef) (strict : Bool := true) : List String :=
  ((if fd.layout_id = none then ["Missing required field: layout_id"] else [])
    ++ (if fd.title = none then ["Missing required field: title"] else [])
    ++ (if fd.steps.isNone then ["Missing required field: steps"] else []))
  ++ (match fd.steps with
      | some steps => validateStepsGo 0 [] [] steps
      | none => [])
  ++ (if strict then validate_production_ready fd else [])

/-- `FlowEngine._build_question(step, context)`, abstracted to whether a
blocking question object is produced (`.ok true`), the step prints/renders
without blocking (`.ok false`, the `return None` paths: an `info` header
step with a truthy `title`, or an unknown type), or a `KeyError` is raised
subscripting a missing key (`step["type"]`, `step["choices"]`,
`choice["name"]`, `step["message"]`). -/
def build_question (step : Step) : Except ExecErr Bool :=
  match step.type with
  | none => .error (.keyError "type")
  | some t =>
    if t = "info" then
      if truthyStr step.title then .ok false else .ok true
    else if t = "select" then
      match step.choices with
      | none => .error (.keyError "choices")
      | some cs =>
        if cs.any (fun c => match c with | .cpair none _ => true | _ => false) then
          .error (.keyError "name")
        else match step.message with
          | none => .error (.keyError "message")
          | some _ => .ok true
    else if t = "text" ∨ t = "password" ∨ t = "confirm" then
      match step.message with
      | none => .error (.keyError "message")
      | some _ => .ok true
    else .ok false

/-- The step loop of `FlowEngine._execute_flow_internal`, threading the
accumulated answers and the number of `ask` calls made so far.  `oracle n`
is the collaborator's response to the `n`-th ask; `subEngine` is the
recursively constructed engine that executes a sublayout reference
(an independent sub-run seeded with `{**context, **answers}`).  A `None`
answer and a `KeyboardInterrupt` during the ask both abort with
`FlowExecutionError` (execution cancelled). -/
def runSteps (oracle : Nat → AskResult)
    (subEngine : String → Ctx → Ctx → Except ExecErr Ctx)
    (context mock : Ctx) :
    List Step → Ctx → Nat → (Except ExecErr Ctx) × Nat
  | [], answers, asks => (.ok answers, asks)
  | step :: rest, answers, asks =>
    match step.sublayout with
    | some subp =>
      match subEngine subp (pyMerge context answers) mock with
      | .ok subAnswers =>
        runSteps oracle subEngine context mock rest (pyMerge answers subAnswers) asks
      | .error e => (.error e, asks)
    | none =>
      match step.type with
      | none => (.error (.keyError "type"), asks)
      | some t =>
        if t = "computed" then
          match step.compute with
          | some expr =>
            match step.id with
            | none => (.error (.keyError "id"), asks)
            | some sid =>
              runSteps oracle subEngine context mock rest
                (pySet answers sid
                  (.vbool (evaluate_expression expr (pyMerge context answers)))) asks
          | none => runSteps oracle subEngine context mock rest answers asks
        else if !should_show_step step (pyMerge context answers) then
          runSteps oracle subEngine context mock rest answers asks
        else
          match (if truthyStr step.id then
                   pyGet mock (step.id.getD "")
                 else none) with
          | some mv =>
            runSteps oracle subEngine context mock rest
              (pySet answers (step.id.getD "") mv) asks
          | none =>
            match build_question step with
            | .error e => (.error e, asks)
            | .ok false => runSteps oracle subEngine context mock rest answers asks
            | .ok true =>
              match oracle asks with
              | .interrupt => (.error .executionCancelled, asks + 1)
              | .answer .vnone => (.error .executionCancelled, asks + 1)
              | .answer v =>
                runSteps oracle subEngine context mock rest
                  (if truthyStr step.id then pySet answers (step.id.getD "") v
                   else answers)
                  (asks + 1)

/-- `FlowEngine.execute_flow` / `_execute_flow_internal` after the
definition has been loaded (`_load_flow` is modelled by handing over the
parsed definition): validate strictly and raise `FlowValidationError` on any
error, run the step loop from empty answers, then apply the optional output
mapping.  Returns the result together with the number of `ask` calls made. -/
def execute_flow (fd : FlowDef) (context mock : Ctx) (oracle : Nat → AskResult)
    (subEngine : String → Ctx → Ctx → Except ExecErr Ctx) :
    (Except ExecErr Ctx) × Nat :=
  let errors := validate_flow fd true
  if errors ≠ [] then (.error (.validationError errors), 0)
  else
    match fd.title with
    | none => (.error (.keyError "title"), 0)
    | some _ =>
      match fd.steps with
      | none => (.error (.keyError "steps"), 0)
      | some steps =>
        match runSteps oracle subEngine context mock steps [] 0 with
        | (.ok answers, asks) =>
          (match fd.output_mapping with
           | some m => (.ok (apply_output_mapping answers m), asks)
           | none => (.ok answers, asks))
        | (.error e, asks) => (.error e, asks)

/-- The synthesized `info` header the designer `LayoutPreprocessor` injects
before a sublayout's steps when the sublayout has a truthy title or
description. -/
def sublayoutHeaderSteps (subData : FlowDef) : List Step :=
  if truthyStr subData.title || truthyStr subData.description then
    [{ id := some ("_header_" ++ subData.layout_id.getD "sublayout"),
       type := some "info",
       title := some (if truthyStr subData.title then subData.title.getD ""
                      else "Section"),
       message := some (subData.description.getD "") }]
  else []

/-- One step of the designer `LayoutPreprocessor.reconstruct_virtual_layout`
loop: a step with a truthy `sublayout` is replaced by the referenced file's
optional header plus its steps (resolved relative to the root's directory);
any other step is copied through unchanged. -/
def expandStep (fs : FS) (dir : String) (step : Step) : Except PreErr (List Step) :=
  if truthyStr step.sublayout then
    let subPath := joinPath dir (step.sublayout.getD "")
    match fsGet fs subPath with
    | none => .error (.fileNotFound subPath)
    | some subData => .ok (sublayoutHeaderSteps subData ++ subData.steps.getD [])
  else .ok [step]

/-- The fold of `expandStep` over the root's steps. -/
def expandAll (fs : FS) (dir : String) : List Step → Except PreErr (List Step)
  | [] => .ok []
  | step :: rest =>
    match expandStep fs dir step with
    | .error e => .error e
    | .ok ls =>
      match expandAll fs dir rest with
      | .error e => .error e
      | .ok rs => .ok (ls ++ rs)

/-- Designer `LayoutPreprocessor.reconstruct_virtual_layout(layout_path)`:
read the root document, expand each step in order (single level — nested
sublayout references inside a sublayout are spliced through unexpanded; no
cycle tracking and no duplicate-id check exist in this copy), and return the
document with the expanded step list. -/
def reconstruct_virtual_layout (fs : FS) (layoutPath : String) :
    Except PreErr FlowDef :=
  match fsGet fs layoutPath with
  | none => .error (.fileNotFound layoutPath)
  | some data =>
    match expandAll fs (parentOf layoutPath) (data.steps.getD []) with
    | .ok expanded => .ok { data with steps := some expanded }
    | .error e => .error e

end TuiFormDesigner

namespace TuiFormEngine

/-- The closed set of valid step types of the engine validator
(`FormExecutor.validate_flow`); narrower than the designer copy. -/
def validStepTypes : List String :=
  ["text", "select", "confirm", "password", "computed"]

/-- The error strings one step contributes in `FormExecutor.validate_flow`
(this copy has no sublayout branch, requires `message` for every type except
`computed` — including `info` — and checks `choices` only for `select`). -/
def stepErrors (i : Nat) (stepIds : List String) (step : Step) : List String :=
  (match step.id with
   | none => ["Step " ++ toString i ++ ": Missing id field"]
   | some sid =>
     if sid ∈ stepIds then ["Step " ++ toString i ++ ": Duplicate step ID " ++ sid]
     else [])
  ++ (match step.type with
      | none => ["Step " ++ toString i ++ ": Missing type field"]
      | some t =>
        if t ∈ validStepTypes then []
        else ["Step " ++ toString i ++ ": Invalid step type " ++ t])
  ++ (if step.message.isNone && !(step.type = some "computed") then
        ["Step " ++ toString i ++ ": Missing message field"]
      else [])
  ++ (if step.type = some "select" ∧ step.choices.isNone then
        ["Step " ++ toString i ++ ": Select step missing choices field"]
      else [])

/-- The id set after one step of `FormExecutor.validate_flow`. -/
def nextIds (stepIds : List String) (step : Step) : List String :=
  match step.id with
  | some sid => if sid ∈ stepIds then stepIds else stepIds ++ [sid]
  | none => stepIds

/-- The step loop of `FormExecutor.validate_flow`. -/
def validateStepsGo (i : Nat) (stepIds : List String) : List Step → List String
  | [] => []
  | step :: rest =>
    stepErrors i stepIds step ++ validateStepsGo (i + 1) (nextIds stepIds step) rest

/-- `FormExecutor.validate_flow(flow_definition)`: required top-level fields
(`flow_id`, `title`, `steps`) and per-step checks; no strict mode in this
copy. -/
def validate_flow (fd : FlowDef) : List String :=
  ((if fd.flow_id = none then ["Missing required field: flow_id"] else [])
    ++ (if fd.title = none then ["Missing required field: title"] else [])
    ++ (if fd.steps.isNone then ["Missing required field: steps"] else []))
  ++ (match fd.steps with
      | some steps => validateStepsGo 0 [] steps
      | none => [])

/-- `FormExecutor._build_question(step, context)`, abstracted as in the
designer model.  In this copy an `info` step always produces a blocking
confirm question, and dict choices always subscript `choice['name']`. -/
def build_question (step : Step) : Except ExecErr Bool :=
  match step.type with
  | none => .error (.keyError "type")
  | some t =>
    if t = "info" then .ok true
    else if t = "select" then
      match step.choices with
      | none => .error (.keyError "choices")
      | some cs =>
        if cs.any (fun c => match c with | .cpair none _ => true | _ => false) then
          .error (.keyError "name")
        else match step.message with
          | none => .error (.keyError "message")
          | some _ => .ok true
    else if t = "text" ∨ t = "password" ∨ t = "confirm" then
      match step.message with
      | none => .error (.keyError "message")
      | some _ => .ok true
    else .ok false

/-- The step loop of `FormExecutor.execute_flow`.  This copy has no
sublayout branch, subscripts `step['id']` unconditionally for the mock check
(and `step['message']` inside the mock indicator message), and stores
whatever `question.ask()` returns — including `None` — without the
cancellation normalization the designer copy performs. -/
def runSteps (oracle : Nat → AskResult) (context mock : Ctx) :
    List Step → Ctx → Nat → (Except ExecErr Ctx) × Nat
  | [], answers, asks => (.ok answers, asks)
  | step :: rest, answers, asks =>
    match step.type with
    | none => (.error (.keyError "type"), asks)
    | some t =>
      if t = "computed" then
        match step.compute with
        | some expr =>
          match step.id with
          | none => (.error (.keyError "id"), asks)
          | some sid =>
            runSteps oracle context mock rest
              (pySet answers sid
                (.vbool (evaluate_expression expr (pyMerge context answers)))) asks
        | none => runSteps oracle context mock rest answers asks
      else if !should_show_step step (pyMerge context answers) then
        runSteps oracle context mock rest answers asks
      else
        match step.id with
        | none => (.error (.keyError "id"), asks)
        | some sid =>
          match pyGet mock sid with
          | some mv =>
            match step.message with
            | none => (.error (.keyError "message"), asks)
            | some _ => runSteps oracle context mock rest (pySet answers sid mv) asks
          | none =>
            match build_question step with
            | .error e => (.error e, asks)
            | .ok false => runSteps oracle context mock rest answers asks
            | .ok true =>
              match oracle asks with
              | .interrupt => (.error .executionCancelled, asks + 1)
              | .answer v =>
                runSteps oracle context mock rest (pySet answers sid v) (asks + 1)

/-- `FormExecutor.execute_flow` after loading (a pre-loaded `flow_data` is
handed over directly).  The source computes `self.validate_flow(flow_def)`
and discards the returned error list, so execution proceeds regardless of
validation findings. -/
def execute_flow (fd : FlowDef) (context mock : Ctx) (oracle : Nat → AskResult) :
    (Except ExecErr Ctx) × Nat :=
  let _ := validate_flow fd
  match fd.title with
  | none => (.error (.keyError "title"), 0)
  | some _ =>
    match fd.steps with
    | none => (.error (.keyError "steps"), 0)
    | some steps =>
      match runSteps oracle context mock steps [] 0 with
      | (.ok answers, asks) =>
        (match fd.output_mapping with
         | some m => (.ok (apply_output_mapping answers m), asks)
         | none => (.ok answers, asks))
      | (.error e, asks) => (.error e, asks)

/-- `LayoutPreprocessor._load_sublayout(sublayout_path, base_dir)`: raise a
circular-reference `ValueError` if the resolved path is already in
`self.loaded_sublayouts`, a `FileNotFoundError` if the file is missing, else
record the path and return the sublayout's steps (`.get('steps', [])`,
without recursing into them). -/
def load_sublayout (fs : FS) (loaded : List String) (subPath : String) :
    Except PreErr (List Step × List String) :=
  if subPath ∈ loaded then .error (.circularRef subPath)
  else match fsGet fs subPath with
    | none => .error (.fileNotFound subPath)
    | some subData => .ok (subData.steps.getD [], subPath :: loaded)

/-- `LayoutPreprocessor._validate_step_ids(steps)`: collect ids that occur
more than once among truthy step ids and raise if any. -/
def validate_step_ids (steps : List Step) : Except PreErr Unit :=
  let dups := go steps []
  if dups ≠ [] then .error (.duplicateIds dups) else .ok ()
where
  go : List Step → List String → List String
  | [], _ => []
  | step :: rest, seen =>
    if truthyStr step.id then
      let sid := step.id.getD ""
      (if sid ∈ seen then [sid] else []) ++ go rest (seen ++ [sid])
    else go rest seen

/-- The step loop of the engine
`LayoutPreprocessor.reconstruct_virtual_layout`: steps carrying a
`sublayout` key (key presence, not truthiness, in this copy) are replaced by
the referenced file's steps — no header synthesis and no recursion into the
spliced steps — while tracking `loaded_sublayouts`. -/
def processSteps (fs : FS) (dir : String) :
    List Step → List String → Except PreErr (List Step)
  | [], _ => .ok []
  | step :: rest, loaded =>
    if step.sublayout.isSome then
      match load_sublayout fs loaded (joinPath dir (step.sublayout.getD "")) with
      | .error e => .error e
      | .ok (subSteps, loadedAfter) =>
        match processSteps fs dir rest loadedAfter with
        | .error e => .error e
        | .ok more => .ok (subSteps ++ more)
    else
      match processSteps fs dir rest loaded with
      | .error e => .error e
      | .ok more => .ok (step :: more)

/-- Engine `LayoutPreprocessor.reconstruct_virtual_layout(layout_path)`:
load the root, rebuild the metadata header, splice each directly referenced
sublayout's steps in order (tracking loaded files), then check step-id
uniqueness over the flattened sequence. -/
def reconstruct_virtual_layout (fs : FS) (layoutPath : String) :
    Except PreErr FlowDef :=
  match fsGet fs layoutPath with
  | none => .error (.fileNotFound layoutPath)
  | some main =>
    match processSteps fs (parentOf layoutPath) (main.steps.getD []) [] with
    | .error e => .error e
    | .ok steps =>
      match validate_step_ids steps with
      | .error e => .error e
      | .ok _ =>
        .ok { title := some (main.title.getD "Untitled Layout"),
              description := some (main.description.getD ""),
              icon := main.icon,
              version := some (main.version.getD "1.0.0"),
              metadata := some (main.metadata.getD (.vdict [])),
              defaults_file := main.defaults_file,
              steps := some steps }

/-- `DefaultsPreprocessor._load_defaults_file(defaults_path)`: a missing
file, a failed load or a document without a `defaults` section all degrade
to the empty mapping. -/
def load_defaults_file (fs : FS) (p : String) : Ctx :=
  match fsGet fs p with
  | none => []
  | some doc => doc.defaults.getD []

/-- The sublayout-defaults layer one root step contributes in
`DefaultsPreprocessor.merge_defaults`: for a step with a `sublayout` key
whose file exists and declares `sublayout_defaults`, the referenced defaults
mapping (resolved relative to the main layout's directory), else nothing. -/
def sublayoutDefaultsLayer (fs : FS) (dir : String) (step : Step) : Ctx :=
  match step.sublayout with
  | none => []
  | some sub =>
    match fsGet fs (joinPath dir sub) with
    | none => []
    | some subData =>
      match subData.sublayout_defaults with
      | none => []
      | some sd => load_defaults_file fs (joinPath dir sd)

/-- `DefaultsPreprocessor.merge_defaults(layout_path, layout_data)`: the
global `defaults_file` mapping is the base layer, then every directly
referenced sublayout's declared defaults are merged on top in step order
(later merges win key-by-key; a shallow `dict.update`). -/
def merge_defaults (fs : FS) (layoutPath : String) (layoutData : FlowDef) : Ctx :=
  let dir := parentOf layoutPath
  let base : Ctx :=
    match layoutData.defaults_file with
    | some df => load_defaults_file fs (joinPath dir df)
    | none => []
  (layoutData.steps.getD []).foldl
    (fun acc step => pyMerge acc (sublayoutDefaultsLayer fs dir step)) base

/-- The per-step assignment of `FormExecutor._merge_defaults`: an externally
supplied default for a truthy step id overwrites the step's hardcoded
`default` field; otherwise the step is left unchanged. -/
def applyDefaultToStep (defaults : Ctx) (step : Step) : Step :=
  match step.id with
  | some sid =>
    if sid ≠ "" then
      match pyGet defaults sid with
      | some v => { step with defaultVal := some v }
      | none => step
    else step
  | none => step

/-- `FormExecutor._merge_defaults(flow_def, flow_path)`: resolve the flow's
`defaults_file` relative to the flow file, and merge its `defaults` mapping
into the steps' `default` fields; a missing or sectionless file leaves the
definition unchanged. -/
def merge_defaults_into_flow (fs : FS) (flowDef : FlowDef) (flowPath : String) :
    FlowDef :=
  match flowDef.defaults_file with
  | none => flowDef
  | some df =>
    match fsGet fs (joinPath (parentOf flowPath) df) with
    | none => flowDef
    | some doc =>
      match doc.defaults with
      | none => flowDef
      | some defaults =>
        { flowDef with steps := flowDef.steps.map (List.map (applyDefaultToStep defaults)) }

end TuiFormEngine

/-! ## Helper lemmas (shared) -/

theorem pyGet_pySet_self (c : Ctx) (k : String) (v : Val) :
    pyGet (pySet c k v) k = some v := by
  induction c with
  | nil => simp [pySet, pyGet]
  | cons kv rest ih =>
    obtain ⟨k₁, v₁⟩ := kv
    by_cases h : k₁ = k <;> simp [pySet, pyGet, h, ih]

theorem pyEqLit_vnone (lit : Literal) : pyEqLit .vnone lit = false := by
  cases lit <;> rfl

theorem evaluate_expression_split (e l r : String) (ctx : Ctx)
    (h : splitFirstEq e = some (l, r)) :
    evaluate_expression e ctx =
      pyEqLit (get_nested_value ctx (pyStripWS l))
        (coerceLiteral (stripQuotes (pyStripWS r))) := by
  simp [evaluate_expression, h]

/-! ## Concrete fixtures used by witnesses and counterexamples -/

/-- A plain, fully well-formed text step with id `q`. -/
def exTextStep : Step := { id := some "q", type := some "text", message := some "M" }

/-- A definition that fails validation in both copies: the identifier field
(`layout_id` resp. `flow_id`) is missing, everything else is well-formed. -/
def exFdNoId : FlowDef := { title := some "T", steps := some [exTextStep] }

/-- A well-formed designer definition (has `layout_id`). -/
def exFdOkD : FlowDef :=
  { layout_id := some "f", title := some "T", steps := some [exTextStep] }

/-- A well-formed engine definition (has `flow_id`). -/
def exFdOkE : FlowDef :=
  { flow_id := some "f", title := some "T", steps := some [exTextStep] }

/-- A collaborator that always answers the string `hi`. -/
def exOracleHi : Nat → AskResult := fun _ => .answer (.vstr "hi")

/-- A collaborator whose ask always returns `None` (a swallowed interrupt). -/
def exOracleNone : Nat → AskResult := fun _ => .answer .vnone

/-- A collaborator whose ask always raises `KeyboardInterrupt`. -/
def exOracleInt : Nat → AskResult := fun _ => .interrupt

/-- A sub-engine stub for sublayout references (never reached in the
fixtures that use it). -/
def exNoSub : String → Ctx → Ctx → Except ExecErr Ctx := fun _ _ _ => .ok []

/-! ## C4 — expression evaluator -/

/-- C4: `evaluate("count == 3", {count: 3})` is true while
`evaluate("count == 3", {count: "3"})` is false; in general an `==`
expression compares the dot-path-resolved left value uncoerced against the
coerced right literal (case-insensitive booleans, digit tokens to ints,
one-dot digit tokens to floats, surrounding quotes stripped otherwise), and
a missing left path compares unequal to every coerced literal. -/
theorem claim_C4_expression_evaluator :
    (evaluate_expression "count == 3" [("count", .vint 3)] = true)
    ∧ (evaluate_expression "count == 3" [("count", .vstr "3")] = false)
    ∧ (∀ e l r ctx, splitFirstEq e = some (l, r) →
        evaluate_expression e ctx =
          pyEqLit (get_nested_value ctx (pyStripWS l))
            (coerceLiteral (stripQuotes (pyStripWS r))))
    ∧ (∀ e l r ctx, splitFirstEq e = some (l, r) →
        get_nested_value ctx (pyStripWS l) = .vnone →
        evaluate_expression e ctx = false)
    ∧ (coerceLiteral "TRUE" = .lbool true)
    ∧ (coerceLiteral "False" = .lbool false)
    ∧ (coerceLiteral "41" = .lint 41)
    ∧ (coerceLiteral "2.5" = .lfloat 25 1)
    ∧ (evaluate_expression "name == \"Ann\"" [("name", .vstr "Ann")] = true)
    ∧ (evaluate_expression "gone == 5" [] = false) := by
  refine ⟨by decide, by decide, ?_, ?_, by decide, by decide, by decide, by decide,
    by decide, by decide⟩
  · intro e l r ctx h
    exact evaluate_expression_split e l r ctx h
  · intro e l r ctx h hnone
    rw [evaluate_expression_split e l r ctx h, hnone, pyEqLit_vnone]

/-- Witness for C4: the general conjuncts applied at concrete inputs. -/
theorem claim_C4_witness :
    (evaluate_expression "count == 3" [("count", .vint 3)] =
      pyEqLit (get_nested_value [("count", .vint 3)] "count") (coerceLiteral "3"))
    ∧ (evaluate_expression "gone == 5" [("kept", .vint 5)] = false) := by
  constructor
  · exact claim_C4_expression_evaluator.2.2.1 "count == 3" "count " " 3"
      [("count", .vint 3)] (by decide)
  · exact claim_C4_expression_evaluator.2.2.2.1 "gone == 5" "gone " " 5"
      [("kept", .vint 5)] (by decide) rfl

/-! ## C9 — output mapper -/

/-- What one spec entry contributes to the output-mapping result: a nested
entry always contributes its (recursively mapped, possibly empty) object; a
leaf contributes the named answer when present and nothing otherwise. -/
def entryResult (answers : Ctx) : String × MNode → Option (String × Val)
  | (k, .node sub) => some (k, .vdict (apply_output_mapping answers sub))
  | (k, .leaf s) => (pyGet answers s).map (fun v => (k, v))

theorem apply_output_mapping_eq_filterMap (answers : Ctx) (spec : MSpec) :
    apply_output_mapping answers spec = spec.filterMap (entryResult answers) := by
  induction spec using apply_output_mapping.induct answers with
  | case1 => simp [apply_output_mapping]
  | case2 k sub rest ih1 ih2 =>
    simp [apply_output_mapping, List.filterMap_cons, entryResult, ih2]
  | case3 k s rest v hv ih =>
    simp [apply_output_mapping, List.filterMap_cons, entryResult, hv, ih]
  | case4 k s rest hv ih =>
    simp [apply_output_mapping, List.filterMap_cons, entryResult, hv, ih]

theorem entryResult_key (answers : Ctx) (k : String) (n : MNode) (p : String × Val)
    (h : entryResult answers (k, n) = some p) : p.1 = k := by
  cases n with
  | node sub => simp [entryResult] at h; rw [← h]
  | leaf s =>
    simp [entryResult] at h
    obtain ⟨v, _, hp⟩ := h
    rw [← hp]

theorem nodup_keys_eq {α : Type _} {l : List (String × α)}
    (h : (l.map Prod.fst).Nodup) {k : String} {a b : α}
    (ha : (k, a) ∈ l) (hb : (k, b) ∈ l) : a = b := by
  induction l with
  | nil => cases ha
  | cons hd tl ih =>
    obtain ⟨k₁, x⟩ := hd
    simp only [List.map_cons, List.nodup_cons] at h
    rcases List.mem_cons.mp ha with h₁ | h₁ <;> rcases List.mem_cons.mp hb with h₂ | h₂
    · injection h₁ with hk₁ hv₁
      injection h₂ with hk₂ hv₂
      rw [hv₁, hv₂]
    · injection h₁ with hk₁ hv₁
      exact absurd (List.mem_map.mpr ⟨(k, b), h₂, by simpa using hk₁⟩) h.1
    · injection h₂ with hk₂ hv₂
      exact absurd (List.mem_map.mpr ⟨(k, a), h₁, by simpa using hk₂⟩) h.1
    · exact ih h.2 h₁ h₂

/-- C9: for every answers mapping and output-mapping spec, every key of the
spec whose value is a nested mapping appears in the result bound to a
(possibly empty) nested object; no key outside the spec ever appears; and
(for a spec with distinct keys, as a Python dict guarantees) a string leaf
naming an absent answer key is dropped.  The first conjunct characterizes
the result exactly as the spec filtered through `entryResult`. -/
theorem claim_C9_output_mapper (answers : Ctx) (spec : MSpec) :
    (apply_output_mapping answers spec = spec.filterMap (entryResult answers))
    ∧ (∀ k sub, (k, MNode.node sub) ∈ spec →
        (k, Val.vdict (apply_output_mapping answers sub)) ∈
          apply_output_mapping answers spec)
    ∧ (∀ k, k ∈ keysOf (apply_output_mapping answers spec) → k ∈ spec.map Prod.fst)
    ∧ ((spec.map Prod.fst).Nodup → ∀ k s, (k, MNode.leaf s) ∈ spec →
        pyGet answers s = none →
        k ∉ keysOf (apply_output_mapping answers spec)) := by
  refine ⟨apply_output_mapping_eq_filterMap answers spec, ?_, ?_, ?_⟩
  · intro k sub hmem
    rw [apply_output_mapping_eq_filterMap]
    exact List.mem_filterMap.mpr ⟨(k, .node sub), hmem, rfl⟩
  · intro k hk
    rw [apply_output_mapping_eq_filterMap, keysOf] at hk
    obtain ⟨⟨k', v⟩, hmem, hfst⟩ := List.mem_map.mp hk
    obtain ⟨⟨k₂, n⟩, hspec, hentry⟩ := List.mem_filterMap.mp hmem
    have hkey := entryResult_key answers k₂ n (k', v) hentry
    simp only at hfst hkey
    exact List.mem_map.mpr ⟨(k₂, n), hspec, by rw [← hfst, hkey]⟩
  · intro hnodup k s hleaf hget hk
    rw [apply_output_mapping_eq_filterMap, keysOf] at hk
    obtain ⟨⟨k', v⟩, hmem, hfst⟩ := List.mem_map.mp hk
    obtain ⟨⟨k₂, n⟩, hspec, hentry⟩ := List.mem_filterMap.mp hmem
    have hkey := entryResult_key answers k₂ n (k', v) hentry
    simp only at hfst hkey
    have hk₂ : k₂ = k := by rw [← hfst, hkey]
    subst hk₂
    have hn : n = MNode.leaf s := nodup_keys_eq hnodup hspec hleaf
    subst hn
    simp [entryResult, hget] at hentry

/-- Witness for C9: at a concrete spec with a nested subtree whose only leaf
is absent from the answers, the nested key still appears (bound to an empty
object) and the absent leaf key is dropped. -/
theorem claim_C9_witness :
    (("user", Val.vdict (apply_output_mapping [("other", .vint 1)]
        [("name", MNode.leaf "n")])) ∈
      apply_output_mapping [("other", .vint 1)]
        [("user", MNode.node [("name", MNode.leaf "n")]), ("x", MNode.leaf "gone")])
    ∧ ("x" ∉ keysOf (apply_output_mapping [("other", .vint 1)]
        [("user", MNode.node [("name", MNode.leaf "n")]), ("x", MNode.leaf "gone")])) := by
  have h := claim_C9_output_mapper [("other", .vint 1)]
    [("user", MNode.node [("name", MNode.leaf "n")]), ("x", MNode.leaf "gone")]
  constructor
  · exact h.2.1 "user" [("name", MNode.leaf "n")] (List.mem_cons_self _ _)
  · exact h.2.2.2 (by decide) "x" "gone"
      (List.mem_cons_of_mem _ (List.mem_cons_self _ _)) rfl

/-! ## C10 — validation is read-only and idempotent -/

namespace TuiFormDesigner

/-- `FlowEngine.validate_flow` transcribed in a state monad over the
definition it receives: the Python function gets a mutable dict, so each
section's reads go through `get`; the source contains no assignment into
`flow_definition` (nor does `_validate_production_ready`), so no `set`
appears. -/
def validateFlowM (strict : Bool) : StateM FlowDef (List String) := do
  let d ← get
  let requiredErrs :=
    (if d.layout_id = none then ["Missing required field: layout_id"] else [])
      ++ (if d.title = none then ["Missing required field: title"] else [])
      ++ (if d.steps.isNone then ["Missing required field: steps"] else [])
  let d₂ ← get
  let stepErrs :=
    match d₂.steps with
    | some steps => validateStepsGo 0 [] [] steps
    | none => []
  let d₃ ← get
  let strictErrs := if strict then validate_production_ready d₃ else []
  pure (requiredErrs ++ stepErrs ++ strictErrs)

end TuiFormDesigner

/-- C10: `validate_flow` is read-only over its input — the definition after
a call (the post-state of the state-threaded transcription) is the
definition before it, in strict and non-strict mode alike — and therefore a
second call on the same definition returns the identical result. -/
theorem claim_C10_validate_readonly_idempotent (d : FlowDef) (strict : Bool) :
    ((TuiFormDesigner.validateFlowM strict).run d =
      (TuiFormDesigner.validate_flow d strict, d))
    ∧ (((TuiFormDesigner.validateFlowM strict).run
          ((TuiFormDesigner.validateFlowM strict).run d).2).1 =
        ((TuiFormDesigner.validateFlowM strict).run d).1) := by
  constructor
  · rfl
  · rfl

/-! ## C8 — computed steps bypass the visibility check -/

/-- C8: in both engine copies, a step of type `computed` carrying a
`compute` expression is evaluated against the current context and its result
stored under the step's id before the visibility check is ever consulted —
the processing of the step is one fixed rewrite that does not mention
`condition`/`when`, so it holds in particular when the step's condition
evaluates false, and the stored answer is the evaluated expression. -/
theorem claim_C8_computed_bypasses_visibility
    (oracle : Nat → AskResult) (subEngine : String → Ctx → Ctx → Except ExecErr Ctx)
    (context mock : Ctx) (step : Step) (rest : List Step) (answers : Ctx)
    (asks : Nat) (expr : String) (sid : String)
    (hsub : step.sublayout = none) (htype : step.type = some "computed")
    (hcompute : step.compute = some expr) (hid : step.id = some sid) :
    (TuiFormDesigner.runSteps oracle subEngine context mock (step :: rest) answers asks =
      TuiFormDesigner.runSteps oracle subEngine context mock rest
        (pySet answers sid
          (.vbool (evaluate_expression expr (pyMerge context answers)))) asks)
    ∧ (TuiFormEngine.runSteps oracle context mock (step :: rest) answers asks =
        TuiFormEngine.runSteps oracle context mock rest
          (pySet answers sid
            (.vbool (evaluate_expression expr (pyMerge context answers)))) asks)
    ∧ (pyGet (pySet answers sid
          (.vbool (evaluate_expression expr (pyMerge context answers)))) sid =
        some (.vbool (evaluate_expression expr (pyMerge context answers)))) := by
  refine ⟨?_, ?_, pyGet_pySet_self _ _ _⟩
  · simp [TuiFormDesigner.runSteps, hsub, htype, hcompute, hid]
  · simp [TuiFormEngine.runSteps, htype, hcompute, hid]

/-- A computed step whose condition is false against the context it is
evaluated in. -/
def exComputedStep : Step :=
  { id := some "c", type := some "computed", compute := some "n == 1",
    condition := some "never == 1" }

/-- Witness for C8: the computed step above, with its false condition, still
stores its evaluated value; checked end-to-end through the designer
`execute_flow` as well. -/
theorem claim_C8_witness :
    (TuiFormDesigner.runSteps exOracleHi exNoSub [("n", .vint 1)] []
        [exComputedStep] [] 0 =
      TuiFormDesigner.runSteps exOracleHi exNoSub [("n", .vint 1)] [] []
        (pySet [] "c" (.vbool (evaluate_expression "n == 1" (pyMerge [("n", .vint 1)] [])))) 0)
    ∧ (should_show_step exComputedStep [("n", .vint 1)] = false)
    ∧ ((TuiFormDesigner.execute_flow
          { layout_id := some "f", title := some "T", steps := some [exComputedStep] }
          [("n", .vint 1)] [] exOracleHi exNoSub).1 = .ok [("c", .vbool true)]) := by
  refine ⟨?_, by decide, rfl⟩
  exact (claim_C8_computed_bypasses_visibility exOracleHi exNoSub [("n", .vint 1)] []
    exComputedStep [] [] 0 "n == 1" "c" rfl rfl rfl rfl).1

/-! ## C1 — validation failures abort before any prompt -/

/-- C1 (designer copy): whenever `validate_flow` returns a non-empty error
list, `FlowEngine.execute_flow` aborts with a `FlowValidationError` carrying
exactly those errors, performs zero `ask` calls, and returns no answers. -/
theorem claim_C1_validation_aborts_before_prompt
    (fd : FlowDef) (context mock : Ctx) (oracle : Nat → AskResult)
    (subEngine : String → Ctx → Ctx → Except ExecErr Ctx)
    (h : TuiFormDesigner.validate_flow fd true ≠ []) :
    TuiFormDesigner.execute_flow fd context mock oracle subEngine =
      (.error (.validationError (TuiFormDesigner.validate_flow fd true)), 0) := by
  unfold TuiFormDesigner.execute_flow
  simp [h]

/-- Witness for C1: a definition missing `layout_id` aborts with the
validation failure, zero asks. -/
theorem claim_C1_witness :
    TuiFormDesigner.execute_flow exFdNoId [] [] exOracleHi exNoSub =
      (.error (.validationError (TuiFormDesigner.validate_flow exFdNoId true)), 0) :=
  claim_C1_validation_aborts_before_prompt exFdNoId [] [] exOracleHi exNoSub
    (by decide)

/-- Counterexample to C1 as stated: for the engine copy
(`FormExecutor.execute_flow`, which computes the validator's error list and
discards it), the same invalid definition — `flow_id` missing, so
`validate_flow` returns one error — is executed anyway: the prompt
collaborator is asked once and an answer set is returned. -/
theorem claim_C1_counterexample :
    (TuiFormEngine.validate_flow exFdNoId = ["Missing required field: flow_id"])
    ∧ ((TuiFormEngine.execute_flow exFdNoId [] [] exOracleHi).2 = 1)
    ∧ ((TuiFormEngine.execute_flow exFdNoId [] [] exOracleHi).1 =
        .ok [("q", .vstr "hi")]) :=
  ⟨by decide, by decide, rfl⟩

/-! ## C3 — None answers and interrupts both cancel -/

/-- C3 (designer copy): during interactive execution of any step — not a
sublayout reference, not computed, visible, not answered from the mock map,
and materialized into a question — a `None` answer returned by the ask and
an interrupt raised during the ask are normalized to the same outcome: the
run aborts with the execution-cancelled error, so the caller receives an
error and no partial answer set. -/
theorem claim_C3_cancellation_normalized
    (oracle : Nat → AskResult) (subEngine : String → Ctx → Ctx → Except ExecErr Ctx)
    (context mock : Ctx) (step : Step) (rest : List Step) (answers : Ctx)
    (asks : Nat) (t : String)
    (hsub : step.sublayout = none) (htype : step.type = some t)
    (hnotc : t ≠ "computed")
    (hshow : should_show_step step (pyMerge context answers) = true)
    (hmock : (if truthyStr step.id then pyGet mock (step.id.getD "") else none) = none)
    (hq : TuiFormDesigner.build_question step = .ok true)
    (hask : oracle asks = .answer .vnone ∨ oracle asks = .interrupt) :
    TuiFormDesigner.runSteps oracle subEngine context mock (step :: rest) answers asks =
      (.error .executionCancelled, asks + 1) := by
  rcases hask with hask | hask <;>
    simp [TuiFormDesigner.runSteps, hsub, htype, hnotc, hshow, hmock, hq, hask]

/-- Witness for C3: a plain text step with an empty mock map, under a
`None`-answering collaborator and under an interrupting one, both cancel;
and through `execute_flow` the caller gets the cancellation error. -/
theorem claim_C3_witness :
    (TuiFormDesigner.runSteps exOracleNone exNoSub [] [] [exTextStep] [] 0 =
      (.error .executionCancelled, 1))
    ∧ (TuiFormDesigner.runSteps exOracleInt exNoSub [] [] [exTextStep] [] 0 =
        (.error .executionCancelled, 1))
    ∧ ((TuiFormDesigner.execute_flow exFdOkD [] [] exOracleNone exNoSub).1 =
        .error .executionCancelled) :=
  ⟨claim_C3_cancellation_normalized exOracleNone exNoSub [] [] exTextStep [] [] 0
      "text" rfl rfl (by decide) (by decide) rfl rfl (Or.inl rfl),
    claim_C3_cancellation_normalized exOracleInt exNoSub [] [] exTextStep [] [] 0
      "text" rfl rfl (by decide) (by decide) rfl rfl (Or.inr rfl),
    rfl⟩

/-- Counterexample to C3 as stated: the engine copy
(`FormExecutor.execute_flow`) does not normalize a `None` answer — it stores
`None` as the step's answer and returns an answer set containing it, instead
of raising the execution-cancelled error. -/
theorem claim_C3_counterexample :
    ((TuiFormEngine.execute_flow exFdOkE [] [] exOracleNone).1 = .ok [("q", .vnone)])
    ∧ ((TuiFormEngine.execute_flow exFdOkE [] [] exOracleNone).2 = 1)
    ∧ ((TuiFormEngine.execute_flow exFdOkE [] [] exOracleInt).1 =
        .error .executionCancelled) :=
  ⟨rfl, by decide, rfl⟩

/-! ## C5 — defaults priority: sublayout > global > hardcoded -/

/-- The sublayout reference step of the C5 fixture. -/
def exC5Ref : Step := { subid := some "s", sublayout := some "sub.yml" }

/-- The C5 root layout: declares a global `defaults_file` and references one
sublayout. -/
def exC5Root : FlowDef :=
  { layout_id := some "root", title := some "R", defaults_file := some "gd.yml",
    steps := some [exC5Ref] }

/-- The C5 sublayout: declares its own `sublayout_defaults`. -/
def exC5Sub : FlowDef :=
  { title := some "S", sublayout_defaults := some "sd.yml", steps := some [] }

/-- The C5 file system: root, sublayout, a global defaults file binding the
step id to `B`, and a sublayout defaults file binding it to `C`. -/
def exC5fs (sid : String) (B C : Val) : FS :=
  [("d/root.yml", exC5Root), ("d/sub.yml", exC5Sub),
    ("d/gd.yml", { defaults := some [(sid, B)] }),
    ("d/sd.yml", { defaults := some [(sid, C)] })]

/-- Helper: a fold that merges empty layers leaves the base unchanged. -/
theorem foldl_pyMerge_nil (steps : List Step) (base : Ctx) (f : Step → Ctx)
    (hf : ∀ step, f step = []) :
    steps.foldl (fun acc step => pyMerge acc (f step)) base = base := by
  induction steps generalizing base with
  | nil => rfl
  | cons hd tl ih => simp [hf, pyMerge, ih]

/-- Helper: the sublayout defaults layer over an empty file system is empty. -/
theorem sublayoutDefaultsLayer_empty (dir : String) (step : Step) :
    TuiFormEngine.sublayoutDefaultsLayer [] dir step = [] := by
  cases h : step.sublayout <;> simp [TuiFormEngine.sublayoutDefaultsLayer, h, fsGet]

/-- C5: with a hardcoded step default `A`, a global-defaults value `B` and a
sublayout-defaults value `C` for the same step id, the merged mapping
produced by `DefaultsPreprocessor.merge_defaults` assigns `C` (sublayout
overrides global, key by key); `FormExecutor._merge_defaults` applies an
external value over the hardcoded `default` and touches nothing when the id
has no external value; the applied default over the merged mapping is
therefore `C`; and a missing defaults file at either layer degrades to no
additional defaults from that layer (an empty file system merges to the
empty mapping, without error). -/
theorem claim_C5_defaults_priority (sid : String) (A B C : Val) (hsid : sid ≠ "") :
    (pyGet (TuiFormEngine.merge_defaults (exC5fs sid B C) "d/root.yml" exC5Root) sid =
      some C)
    ∧ (∀ defaults step v, step.id = some sid → pyGet defaults sid = some v →
        TuiFormEngine.applyDefaultToStep defaults step = { step with defaultVal := some v })
    ∧ (∀ defaults step, step.id = some sid → pyGet defaults sid = none →
        TuiFormEngine.applyDefaultToStep defaults step = step)
    ∧ ((TuiFormEngine.applyDefaultToStep
          (TuiFormEngine.merge_defaults (exC5fs sid B C) "d/root.yml" exC5Root)
          { id := some sid, defaultVal := some A }).defaultVal = some C)
    ∧ (∀ p, TuiFormEngine.load_defaults_file [] p = [])
    ∧ (∀ layoutPath ld, TuiFormEngine.merge_defaults [] layoutPath ld = []) := by
  have hmerged : TuiFormEngine.merge_defaults (exC5fs sid B C) "d/root.yml" exC5Root =
      pyMerge [(sid, B)] [(sid, C)] := by
    simp [TuiFormEngine.merge_defaults, TuiFormEngine.load_defaults_file,
      TuiFormEngine.sublayoutDefaultsLayer, exC5fs, exC5Root, exC5Sub, exC5Ref, fsGet,
      parentOf, joinPath]
  have hgetC : pyGet (TuiFormEngine.merge_defaults (exC5fs sid B C) "d/root.yml" exC5Root)
      sid = some C := by
    rw [hmerged]
    simp [pyMerge, pySet, pyGet]
  refine ⟨hgetC, ?_, ?_, ?_, ?_, ?_⟩
  · intro defaults step v hid hget
    simp [TuiFormEngine.applyDefaultToStep, hid, hsid, hget]
  · intro defaults step hid hget
    simp [TuiFormEngine.applyDefaultToStep, hid, hsid, hget]
  · simp [TuiFormEngine.applyDefaultToStep, hsid, hgetC]
  · intro p
    simp [TuiFormEngine.load_defaults_file, fsGet]
  · intro layoutPath ld
    simp [TuiFormEngine.merge_defaults, TuiFormEngine.load_defaults_file, fsGet]
    cases ld.defaults_file <;>
      exact foldl_pyMerge_nil _ _ _ (sublayoutDefaultsLayer_empty _)

/-- Witness for C5: concrete id and string values. -/
theorem claim_C5_witness :
    pyGet (TuiFormEngine.merge_defaults (exC5fs "x" (.vstr "B") (.vstr "C"))
        "d/root.yml" exC5Root) "x" = some (.vstr "C")
    ∧ (TuiFormEngine.applyDefaultToStep
        (TuiFormEngine.merge_defaults (exC5fs "x" (.vstr "B") (.vstr "C"))
          "d/root.yml" exC5Root)
        { id := some "x", defaultVal := some (.vstr "A") }).defaultVal =
      some (.vstr "C") :=
  ⟨(claim_C5_defaults_priority "x" (.vstr "A") (.vstr "B") (.vstr "C") (by decide)).1,
    (claim_C5_defaults_priority "x" (.vstr "A") (.vstr "B") (.vstr "C")
      (by decide)).2.2.2.1⟩

/-! ## C6 — expansion flattening (and C2 — cycle detection) -/

namespace TuiFormDesigner

/-- Does a step's sublayout reference resolve in the file system?  (True for
every plain step.) -/
def resolvable (fs : FS) (dir : String) (step : Step) : Bool :=
  !truthyStr step.sublayout ||
    (fsGet fs (joinPath dir (step.sublayout.getD ""))).isSome

/-- The steps `expandStep` produces when the referenced file resolves. -/
def expandStepPure (fs : FS) (dir : String) (step : Step) : List Step :=
  if truthyStr step.sublayout then
    match fsGet fs (joinPath dir (step.sublayout.getD "")) with
    | some subData => sublayoutHeaderSteps subData ++ subData.steps.getD []
    | none => []
  else [step]

/-- How many flattened steps one root step contributes: `k_i` plus one
header for a sublayout with a truthy title or description, and one for a
plain step. -/
def stepContribution (fs : FS) (dir : String) (step : Step) : Nat :=
  if truthyStr step.sublayout then
    match fsGet fs (joinPath dir (step.sublayout.getD "")) with
    | some subData =>
      (subData.steps.getD []).length +
        (if truthyStr subData.title || truthyStr subData.description then 1 else 0)
    | none => 0
  else 1

theorem expandStep_of_resolvable (fs : FS) (dir : String) (step : Step)
    (h : resolvable fs dir step = true) :
    expandStep fs dir step = .ok (expandStepPure fs dir step) := by
  by_cases ht : truthyStr step.sublayout
  · simp [resolvable, ht] at h
    obtain ⟨subData, hsub⟩ := Option.isSome_iff_exists.mp h
    simp [expandStep, expandStepPure, ht, hsub]
  · simp [expandStep, expandStepPure, ht]

theorem expandAll_of_resolvable (fs : FS) (dir : String) (steps : List Step)
    (h : ∀ step ∈ steps, resolvable fs dir step = true) :
    expandAll fs dir steps = .ok ((steps.map (expandStepPure fs dir)).flatten) := by
  induction steps with
  | nil => simp [expandAll]
  | cons hd tl ih =>
    have hhd := h hd (List.mem_cons_self _ _)
    have htl := ih (fun s hs => h s (List.mem_cons_of_mem _ hs))
    simp [expandAll, expandStep_of_resolvable fs dir hd hhd, htl]

theorem length_expandStepPure (fs : FS) (dir : String) (step : Step) :
    (expandStepPure fs dir step).length = stepContribution fs dir step := by
  by_cases ht : truthyStr step.sublayout
  · cases hsub : fsGet fs (joinPath dir (step.sublayout.getD "")) with
    | none => simp [expandStepPure, stepContribution, ht, hsub]
    | some subData =>
      by_cases hh : truthyStr subData.title || truthyStr subData.description <;>
        simp [expandStepPure, stepContribution, sublayoutHeaderSteps, ht, hsub, hh,
          Nat.add_comm]
  · simp [expandStepPure, stepContribution, ht]

end TuiFormDesigner

/-- C6 (designer copy): when every sublayout reference of the root resolves,
`reconstruct_virtual_layout` succeeds with the root's steps replaced by the
in-order concatenation of each step's expansion; the flattened step count is
the sum over root steps of `k_i` + (1 if the referenced sublayout has a
title or description) for sublayout references and 1 for plain steps — that
is, `sum(k_i)` plus the non-sublayout step count plus one synthesized header
per titled/described sublayout; and plain steps are copied through unchanged
at their original positions. -/
theorem claim_C6_expansion_flattening
    (fs : FS) (path : String) (root : FlowDef)
    (hroot : fsGet fs path = some root)
    (hres : ∀ step ∈ root.steps.getD [],
      TuiFormDesigner.resolvable fs (parentOf path) step = true) :
    (TuiFormDesigner.reconstruct_virtual_layout fs path =
      .ok { root with steps := some (((root.steps.getD []).map
              (TuiFormDesigner.expandStepPure fs (parentOf path))).flatten) })
    ∧ ((((root.steps.getD []).map
          (TuiFormDesigner.expandStepPure fs (parentOf path))).flatten).length =
        ((root.steps.getD []).map
          (TuiFormDesigner.stepContribution fs (parentOf path))).sum)
    ∧ (∀ step, truthyStr step.sublayout = false →
        TuiFormDesigner.expandStepPure fs (parentOf path) step = [step]
        ∧ TuiFormDesigner.stepContribution fs (parentOf path) step = 1) := by
  refine ⟨?_, ?_, ?_⟩
  · simp [TuiFormDesigner.reconstruct_virtual_layout, hroot,
      TuiFormDesigner.expandAll_of_resolvable fs (parentOf path) _ hres]
  · rw [List.length_flatten, List.map_map]
    congr 1
    exact List.map_congr_left fun step _ =>
      TuiFormDesigner.length_expandStepPure fs (parentOf path) step
  · intro step hplain
    constructor
    · simp [TuiFormDesigner.expandStepPure, hplain]
    · simp [TuiFormDesigner.stepContribution, hplain]

/-- A sublayout with a title and two steps, for the C6 fixtures. -/
def exStepA : Step := { id := some "a", type := some "text", message := some "A" }

/-- Second step of the C6 sublayout. -/
def exStepB : Step := { id := some "b", type := some "text", message := some "B" }

/-- The C6 sublayout document: titled, two steps. -/
def exC6Sub : FlowDef :=
  { layout_id := some "sub", title := some "Sub T", steps := some [exStepA, exStepB] }

/-- The C6 root: one sublayout reference and one plain step. -/
def exC6Root : FlowDef :=
  { layout_id := some "root", title := some "R",
    steps := some [{ subid := some "s", sublayout := some "sub.yml" }, exTextStep] }

/-- The C6 file system. -/
def exC6fs : FS := [("d/root.yml", exC6Root), ("d/sub.yml", exC6Sub)]

/-- Witness for C6: on the concrete fixture the designer expansion yields
2 sublayout steps + 1 header + 1 plain step = 4, via the theorem. -/
theorem claim_C6_witness :
    TuiFormDesigner.reconstruct_virtual_layout exC6fs "d/root.yml" =
      .ok { exC6Root with steps := some (((exC6Root.steps.getD []).map
              (TuiFormDesigner.expandStepPure exC6fs "d")).flatten) }
    ∧ ((exC6Root.steps.getD []).map
        (TuiFormDesigner.stepContribution exC6fs "d")).sum = 4 :=
  ⟨(claim_C6_expansion_flattening exC6fs "d/root.yml" exC6Root rfl
      (by decide)).1,
    by decide⟩

/-- Counterexample to C6 as stated: the engine copy synthesizes no header
steps, so on the same fixture — one sublayout with `k = 2` steps and a
title, plus one plain root step — its flattened definition has 3 steps, not
the claimed `2 + 1 + 1 = 4`. -/
theorem claim_C6_counterexample :
    ((TuiFormEngine.reconstruct_virtual_layout exC6fs "d/root.yml").map
        (fun v => (v.steps.getD []).length) = .ok 3)
    ∧ (3 ≠ 2 + 1 + 1) :=
  ⟨rfl, by decide⟩

/-- The self-referencing root of the C2 fixture: its only step references
its own originating file. -/
def exC2Root : FlowDef :=
  { layout_id := some "root", title := some "R",
    steps := some [{ subid := some "s", sublayout := some "root.yml" }] }

/-- The C2 file system: just the self-referencing root. -/
def exC2fs : FS := [("d/root.yml", exC2Root)]

/-- A root referencing the same (non-circular) sublayout twice, to document
what the engine's circular-reference check actually fires on. -/
def exC2RootTwice : FlowDef :=
  { layout_id := some "root", title := some "R",
    steps := some [{ subid := some "s1", sublayout := some "sub.yml" },
      { subid := some "s2", sublayout := some "sub.yml" }] }

/-- C2 (code bug): a root definition whose sublayout reference names its own
originating file is expanded by both copies WITHOUT a circular-reference
failure — expansion is single-level, so the self-reference is spliced
through unexpanded into the result — while the engine copy's
circular-reference error fires instead on a root that references the same
non-circular sublayout file twice. -/
theorem claim_C2_cycle_not_detected :
    ((TuiFormEngine.reconstruct_virtual_layout exC2fs "d/root.yml").map
        (fun v => (v.steps.getD []).any (fun s => s.sublayout.isSome)) = .ok true)
    ∧ ((TuiFormDesigner.reconstruct_virtual_layout exC2fs "d/root.yml").map
        (fun v => (v.steps.getD []).any (fun s => s.sublayout.isSome)) = .ok true)
    ∧ (TuiFormEngine.reconstruct_virtual_layout
        [("d/root.yml", exC2RootTwice), ("d/sub.yml", exC6Sub)] "d/root.yml" =
        .error (.circularRef "d/sub.yml")) :=
  ⟨rfl, rfl, rfl⟩

/-! ## C7 — structural validation checks -/

namespace TuiFormDesigner

theorem mem_nextIds_mono (ids : List String) (step : Step) (sid : String)
    (h : sid ∈ ids) : sid ∈ nextIds ids step := by
  unfold nextIds
  by_cases hs : step.sublayout.isSome
  · simp [hs, h]
  · simp [hs]
    cases step.id with
    | none => exact h
    | some sid' =>
      by_cases hmem : sid' ∈ ids <;> simp [hmem, h]

theorem self_mem_nextIds (ids : List String) (step : Step) (sid : String)
    (hsub : step.sublayout = none) (hid : step.id = some sid) :
    sid ∈ nextIds ids step := by
  unfold nextIds
  simp [hsub, hid]
  by_cases hmem : sid ∈ ids <;> simp [hmem]

theorem mem_validateStepsGo_of_mem_step (steps : List Step) (msg : String) :
    ∀ (i : Nat) (ids subids : List String) (j : Nat) (step : Step),
      steps[j]? = some step →
      (∀ ids₂ subids₂, msg ∈ stepStructuralErrors (i + j) ids₂ subids₂ step) →
      msg ∈ validateStepsGo i ids subids steps := by
  induction steps with
  | nil => intro i ids subids j step hget; cases hget
  | cons hd tl ih =>
    intro i ids subids j step hget hmem
    cases j with
    | zero =>
      simp at hget
      subst hget
      simp [validateStepsGo]
      exact Or.inl (hmem ids subids)
    | succ j' =>
      simp at hget
      simp [validateStepsGo]
      refine Or.inr (ih (i + 1) (nextIds ids hd) (nextSubids subids hd) j' step hget ?_)
      intro ids₂ subids₂
      have harith : i + 1 + j' = i + (j' + 1) := by omega
      rw [harith]
      exact hmem ids₂ subids₂

theorem dup_mem_validateStepsGo (sid : String) (steps : List Step) :
    ∀ (i : Nat) (ids subids : List String) (i₂ : Nat) (s₂ : Step),
      steps[i₂]? = some s₂ → s₂.sublayout = none → s₂.id = some sid →
      (sid ∈ ids ∨ ∃ i₁ s₁, i₁ < i₂ ∧ steps[i₁]? = some s₁ ∧
        s₁.sublayout = none ∧ s₁.id = some sid) →
      ("Step " ++ toString (i + i₂) ++ ": Duplicate step ID " ++ sid) ∈
        validateStepsGo i ids subids steps := by
  induction steps with
  | nil => intro i ids subids i₂ s₂ hget; cases hget
  | cons hd tl ih =>
    intro i ids subids i₂ s₂ hget hsub hid hprev
    cases i₂ with
    | zero =>
      simp at hget
      subst hget
      have hin : sid ∈ ids := by
        rcases hprev with h | ⟨i₁, s₁, hlt, _⟩
        · exact h
        · omega
      simp [validateStepsGo]
      refine Or.inl ?_
      simp [stepStructuralErrors, hsub, hid, hin]
    | succ j =>
      simp at hget
      have harith : i + (j + 1) = (i + 1) + j := by omega
      rw [harith]
      simp [validateStepsGo]
      refine Or.inr (ih (i + 1) (nextIds ids hd) (nextSubids subids hd) j s₂ hget hsub hid ?_)
      rcases hprev with h | ⟨i₁, s₁, hlt, hget₁, hsub₁, hid₁⟩
      · exact Or.inl (mem_nextIds_mono ids hd sid h)
      · cases i₁ with
        | zero =>
          simp at hget₁
          subst hget₁
          exact Or.inl (self_mem_nextIds ids hd sid hsub₁ hid₁)
        | succ k =>
          simp at hget₁
          exact Or.inr ⟨k, s₁, by omega, hget₁, hsub₁, hid₁⟩

end TuiFormDesigner

/-- A fully well-formed definition exercising all seven step types of the
designer validator's closed set. -/
def exAllTypes : FlowDef :=
  { layout_id := some "f", title := some "T",
    steps := some [
      { id := some "s1", type := some "text", message := some "m" },
      { id := some "s2", type := some "select", message := some "m",
        choices := some [.cstr "a"] },
      { id := some "s3", type := some "multiselect", message := some "m",
        choices := some [.cstr "a"] },
      { id := some "s4", type := some "confirm", message := some "m" },
      { id := some "s5", type := some "password", message := some "m" },
      { id := some "s6", type := some "computed" },
      { id := some "s7", type := some "info" }] }

/-- The spec's validation example: no top-level fields, a single step with a
type and a message but no id. -/
def exNoTitleFd : FlowDef :=
  { steps := some [{ type := some "text", message := some "x" }] }

/-- C7 (designer copy): `validate_flow` reports each missing required
top-level field; for every non-sublayout step it reports a missing id, a
duplicate id (relative to any earlier non-sublayout step), a missing type,
a type outside the closed set, a missing message for types other than
`computed`/`info`, and missing choices for `select`/`multiselect`; it does
not short-circuit — the spec's example, missing `layout_id`, `title` and the
step id, yields exactly 3 error strings — and a definition using all seven
closed-set types validates with no findings at all. -/
theorem claim_C7_validator_checks (fd : FlowDef) (strict : Bool) :
    (fd.layout_id = none →
      "Missing required field: layout_id" ∈ TuiFormDesigner.validate_flow fd strict)
    ∧ (fd.title = none →
        "Missing required field: title" ∈ TuiFormDesigner.validate_flow fd strict)
    ∧ (fd.steps = none →
        "Missing required field: steps" ∈ TuiFormDesigner.validate_flow fd strict)
    ∧ (∀ (steps : List Step) (j : Nat) (step : Step),
        fd.steps = some steps → steps[j]? = some step →
        step.sublayout = none →
        (step.id = none →
          ("Step " ++ toString j ++ ": Missing id field") ∈
            TuiFormDesigner.validate_flow fd strict)
        ∧ (step.type = none →
            ("Step " ++ toString j ++ ": Missing type field") ∈
              TuiFormDesigner.validate_flow fd strict)
        ∧ (∀ t, step.type = some t → t ∉ TuiFormDesigner.validStepTypes →
            ("Step " ++ toString j ++ ": Invalid step type " ++ t) ∈
              TuiFormDesigner.validate_flow fd strict)
        ∧ (∀ t, step.message = none → step.type = some t → t ≠ "computed" →
            t ≠ "info" →
            ("Step " ++ toString j ++ ": Missing message field") ∈
              TuiFormDesigner.validate_flow fd strict)
        ∧ (∀ t, step.type = some t → (t = "select" ∨ t = "multiselect") →
            step.choices = none →
            ("Step " ++ toString j ++ ": " ++ t ++ " step missing choices field") ∈
              TuiFormDesigner.validate_flow fd strict))
    ∧ (∀ (steps : List Step) (i₁ i₂ : Nat) (s₁ s₂ : Step) (sid : String),
        fd.steps = some steps → i₁ < i₂ →
        steps[i₁]? = some s₁ → steps[i₂]? = some s₂ →
        s₁.sublayout = none → s₂.sublayout = none →
        s₁.id = some sid → s₂.id = some sid →
        ("Step " ++ toString i₂ ++ ": Duplicate step ID " ++ sid) ∈
          TuiFormDesigner.validate_flow fd strict)
    ∧ ((TuiFormDesigner.validate_flow exNoTitleFd true).length = 3)
    ∧ (TuiFormDesigner.validate_flow exAllTypes true = []) := by
  have hmid : ∀ (steps : List Step) (msg : String), fd.steps = some steps →
      msg ∈ TuiFormDesigner.validateStepsGo 0 [] [] steps →
      msg ∈ TuiFormDesigner.validate_flow fd strict := by
    intro steps msg hsteps hmem
    unfold TuiFormDesigner.validate_flow
    rw [hsteps]
    exact List.mem_append_left _ (List.mem_append_right _ hmem)
  refine ⟨?_, ?_, ?_, ?_, ?_, by decide, by decide⟩
  · intro h
    unfold TuiFormDesigner.validate_flow
    refine List.mem_append_left _ (List.mem_append_left _ ?_)
    simp [h]
  · intro h
    unfold TuiFormDesigner.validate_flow
    refine List.mem_append_left _ (List.mem_append_left _ ?_)
    simp [h]
  · intro h
    unfold TuiFormDesigner.validate_flow
    refine List.mem_append_left _ (List.mem_append_left _ ?_)
    simp [h]
  · intro steps j step hsteps hget hsub
    have hbase := TuiFormDesigner.mem_validateStepsGo_of_mem_step steps
    refine ⟨?_, ?_, ?_, ?_, ?_⟩
    · intro hid
      refine hmid steps _ hsteps (hbase _ 0 [] [] j step hget ?_)
      intro ids₂ subids₂
      simp [TuiFormDesigner.stepStructuralErrors, hsub, hid]
    · intro htype
      refine hmid steps _ hsteps (hbase _ 0 [] [] j step hget ?_)
      intro ids₂ subids₂
      simp [TuiFormDesigner.stepStructuralErrors, hsub, htype]
    · intro t htype hnotin
      refine hmid steps _ hsteps (hbase _ 0 [] [] j step hget ?_)
      intro ids₂ subids₂
      simp [TuiFormDesigner.stepStructuralErrors, hsub, htype, hnotin]
    · intro t hmsg htype hnc hni
      refine hmid steps _ hsteps (hbase _ 0 [] [] j step hget ?_)
      intro ids₂ subids₂
      simp [TuiFormDesigner.stepStructuralErrors, hsub, hmsg, htype, hnc, hni]
    · intro t htype hsel hch
      refine hmid steps _ hsteps (hbase _ 0 [] [] j step hget ?_)
      intro ids₂ subids₂
      simp [TuiFormDesigner.stepStructuralErrors, hsub, htype, hsel, hch]
  · intro steps i₁ i₂ s₁ s₂ sid hsteps hlt hget₁ hget₂ hsub₁ hsub₂ hid₁ hid₂
    refine hmid steps _ hsteps ?_
    have := TuiFormDesigner.dup_mem_validateStepsGo sid steps 0 [] [] i₂ s₂ hget₂
      hsub₂ hid₂ (Or.inr ⟨i₁, s₁, hlt, hget₁, hsub₁, hid₁⟩)
    simpa using this

/-- Witness for C7: the spec's example discharges the missing-field and
missing-id conjuncts at concrete inputs. -/
theorem claim_C7_witness :
    ("Missing required field: layout_id" ∈
      TuiFormDesigner.validate_flow exNoTitleFd true)
    ∧ (("Step " ++ toString 0 ++ ": Missing id field") ∈
        TuiFormDesigner.validate_flow exNoTitleFd true) :=
  ⟨(claim_C7_validator_checks exNoTitleFd true).1 rfl,
    ((claim_C7_validator_checks exNoTitleFd true).2.2.2.1
      [{ type := some "text", message := some "x" }] 0
      { type := some "text", message := some "x" } rfl rfl rfl).1 rfl⟩

/-- A fully well-formed `multiselect` step for the C7 counterexample. -/
def exMultiStep : Step :=
  { id := some "m", type := some "multiselect", message := some "Pick",
    choices := some [.cstr "a"] }

/-- An engine definition whose only step is the well-formed `multiselect`. -/
def exFdMultiE : FlowDef :=
  { flow_id := some "f", title := some "T", steps := some [exMultiStep] }

/-- Counterexample to C7 as stated: the engine copy's validator does not
accept the claimed closed type set — a fully well-formed `multiselect` step
is flagged as an invalid step type (its closed set is
{text, select, confirm, password, computed}). -/
theorem claim_C7_counterexample :
    TuiFormEngine.validate_flow exFdMultiE =
      ["Step 0: Invalid step type multiselect"] := by decide
